import Mathlib

/-!
Verification of the Devign training driver (`main.py`).

The driver is embedded shallowly as a pure function from the parsed
command-line arguments and an abstract environment (the constructed
dataset and the state of the filesystem) to the ordered list of
observable events it performs: RNG seeding, the embed-size warning,
dataset loading/pickling, the feature-size assertion, model
construction, the call into the training loop, and the optional
post-training JSON export.  Logging and directory creation are omitted
except for the warning print, which one property is about.

Numeric command-line values are modelled as `Int` (Python ints),
optimizer hyperparameters as `Rat`, and graph embeddings as `List Int`
(stand-ins for the float vectors; the driver only moves them around).
-/

/-- The two model variants accepted by `--model_type` (`choices=['devign','ggnn']`). -/
inductive ModelType where
  | devign
  | ggnn
deriving DecidableEq, Repr

/-- Loss reduction modes of `torch.nn.BCELoss`. -/
inductive Reduction where
  | rsum
  | rmean
  | rnone
deriving DecidableEq, Repr

/-- The loss function object handed to the trainer (`BCELoss(reduction='sum')`). -/
inductive LossFn where
  | bceLoss (red : Reduction)
deriving DecidableEq, Repr

/-- The optimizer object handed to the trainer
(`Adam(model.parameters(), lr=0.0001, weight_decay=0.001)`). -/
inductive Optimizer where
  | adam (lr : Rat) (weight_decay : Rat)
deriving DecidableEq, Repr

/-- File open modes that matter here: `'rb'` for the dead pickle read,
`'wb'` for the pickle write (truncating/overwriting). -/
inductive FileMode where
  | rb
  | wb
deriving DecidableEq, Repr

/-- Parsed command-line arguments, after `argparse` has applied defaults
(`main.py` lines 54-68). -/
structure Args where
  model_type : ModelType
  dataset : String
  input_dir : String
  node_tag : String
  graph_tag : String
  label_tag : String
  feature_size : Int
  graph_embed_size : Int
  num_steps : Int
  batch_size : Int
  save_after_ggnn : Bool
deriving DecidableEq, Repr

/-- A raw command line: optional flags are `none` when omitted, `some v`
when given with value `v`; `--dataset` and `--input_dir` are required. -/
structure CmdLine where
  model_type : Option ModelType
  dataset : String
  input_dir : String
  node_tag : Option String
  graph_tag : Option String
  label_tag : Option String
  feature_size : Option Int
  graph_embed_size : Option Int
  num_steps : Option Int
  batch_size : Option Int
  save_after_ggnn : Bool
deriving DecidableEq, Repr

def defaultNodeTag : String := "node_features"

def defaultGraphTag : String := "graph"

def defaultLabelTag : String := "target"

/-- The `argparse` defaulting of `main.py` lines 54-68. -/
def parseArgs (c : CmdLine) : Args where
  model_type := c.model_type.getD ModelType.devign
  dataset := c.dataset
  input_dir := c.input_dir
  node_tag := c.node_tag.getD defaultNodeTag
  graph_tag := c.graph_tag.getD defaultGraphTag
  label_tag := c.label_tag.getD defaultLabelTag
  feature_size := c.feature_size.getD 100
  graph_embed_size := c.graph_embed_size.getD 200
  num_steps := c.num_steps.getD 6
  batch_size := c.batch_size.getD 128
  save_after_ggnn := c.save_after_ggnn

/-- One batch as the driver sees it during the export loop: the rows of
`model.get_graph_embeddings(graph).tolist()` and the `targets.tolist()`
of that batch. -/
structure BatchOut where
  embeddings : List (List Int)
  targets : List Int
deriving DecidableEq, Repr

/-- The fields of the constructed `DataSet` object that the driver reads:
its detected feature size, its maximum edge type, and the batch streams
of the three splits (in the iteration order used by the export loop). -/
structure DataSet where
  feature_size : Int
  max_edge_type : Nat
  train_batches : List BatchOut
  valid_batches : List BatchOut
  test_batches : List BatchOut
deriving DecidableEq, Repr

/-- The environment of one run: whether `<input_dir>/processed.bin`
exists at startup, and the dataset that `DataSet(...)` constructs from
the three JSON files. -/
structure Env where
  processed_bin_exists : Bool
  dataset : DataSet
deriving DecidableEq, Repr

/-- POSIX `os.path.join` restricted to two components, as CPython's
`posixpath.join` computes it. -/
def osJoin (a b : String) : String :=
  if b.front = '/' then b
  else if a = "" ∨ a.back = '/' then a ++ b
  else a ++ "/" ++ b

def trainFileName : String := "train_GGNNinput.json"

def validFileName : String := "valid_GGNNinput.json"

def testFileName : String := "test_GGNNinput.json"

def processedBinName : String := "processed.bin"

def modelsDirName : String := "models"

def ggnnSumModelSuffix : String := "/GGNNSumModel"

def afterGgnnDirName : String := "after_ggnn"

def ggnnGraphSuffix : String := "_GGNNinput_graph.json"

def testSplitName : String := "test"

def validSplitName : String := "valid"

def trainSplitName : String := "train"

/-- One element of the exported JSON array: `{'graph_feature': f[0], 'target': f[1]}`
(`main.py` line 45). -/
structure GraphEntry where
  graph_feature : List Int
  target : Int
deriving DecidableEq, Repr

/-- The embed-size auto-correction of `main.py` lines 70-73: returns the
possibly-updated args and whether the warning was printed. -/
def adjustArgs (args : Args) : Args × Bool :=
  if args.feature_size > args.graph_embed_size then
    ({ args with graph_embed_size := args.feature_size }, true)
  else (args, false)

/-- The observable events of one driver run, in program order. -/
inductive Event where
  | seedTorch (n : Nat)
  | seedNumpy (n : Nat)
  | warnEmbedSize
  | readPickled (path : String)
  | constructDataset (train_src valid_src test_src : String) (batch_size : Int)
      (n_ident g_ident l_ident : String)
  | writePickle (path : String) (mode : FileMode)
  | assertFeatureSizeFail
  | constructModel (mt : ModelType) (input_dim output_dim num_steps : Int)
      (max_edge_types : Nat)
  | trainCall (max_steps dev_every : Nat) (loss : LossFn) (optim : Optimizer)
      (save_path : String) (max_patience : Nat) (params_of : ModelType)
  | writeJson (path : String) (content : List GraphEntry)
deriving DecidableEq, Repr

/-- The pure content of `save_after_ggnn` (`main.py` lines 20-49): the
destination path and the JSON array written there.  Per batch the rows of
`get_graph_embeddings` are zipped with the batch targets (line 43); the
batches are concatenated in iteration order (`final += ...`) and each
pair becomes a `{graph_feature, target}` object (line 45).  The
prediction/loss accumulators of lines 21-40 never reach the output. -/
def save_after_ggnn (output_dir : String) (name : String) (batches : List BatchOut) :
    String × List GraphEntry :=
  let final := (batches.map fun b => b.embeddings.zip b.targets).flatten
  (osJoin output_dir (name ++ ggnnGraphSuffix),
   final.map fun f => { graph_feature := f.1, target := f.2 })

/-- The `__main__` block of `main.py` (lines 51-122) as an event trace.

Line-by-line: seeds (52-53); argparse already applied in `args`;
embed-size adjustment (70-73); `model_dir = os.path.join('models',
args.dataset)` (75); `processed_data_path` (79); the dead
`if False and os.path.exists(...)` branch (80-83) versus dataset
construction plus pickling (84-92); the feature-size assert (93-95);
model construction (96-101); `BCELoss(reduction='sum')` (107);
`Adam(model.parameters(), lr=0.0001, weight_decay=0.001)` (108); the
live `train(...)` call with `max_steps=1000000, dev_every=128,
save_path=model_dir + '/GGNNSumModel', max_patience=5` (112-114); and
the optional export of the test, valid and train splits into
`<input_dir>/after_ggnn` (116-122). -/
def mainRun (args : Args) (env : Env) : List Event :=
  let seedEvents : List Event := [Event.seedTorch 1000, Event.seedNumpy 1000]
  let pair := adjustArgs args
  let args2 := pair.1
  let warnEvents : List Event := if pair.2 then [Event.warnEmbedSize] else []
  let model_dir := osJoin modelsDirName args2.dataset
  let input_dir := args2.input_dir
  let processed_data_path := osJoin input_dir processedBinName
  let loadEvents : List Event :=
    if false && env.processed_bin_exists then
      [Event.readPickled processed_data_path]
    else
      [Event.constructDataset (osJoin input_dir trainFileName) (osJoin input_dir validFileName)
         (osJoin input_dir testFileName) args2.batch_size args2.node_tag args2.graph_tag
         args2.label_tag,
       Event.writePickle processed_data_path FileMode.wb]
  let pre := seedEvents ++ warnEvents ++ loadEvents
  if args2.feature_size = env.dataset.feature_size then
    let modelEv := Event.constructModel args2.model_type env.dataset.feature_size
        args2.graph_embed_size args2.num_steps env.dataset.max_edge_type
    let trainEv := Event.trainCall 1000000 128 (LossFn.bceLoss Reduction.rsum)
        (Optimizer.adam (1 / 10000) (1 / 1000)) (model_dir ++ ggnnSumModelSuffix) 5
        args2.model_type
    let saveEvents : List Event :=
      if args2.save_after_ggnn then
        let dir := osJoin args2.input_dir afterGgnnDirName
        [Event.writeJson (save_after_ggnn dir testSplitName env.dataset.test_batches).1
           (save_after_ggnn dir testSplitName env.dataset.test_batches).2,
         Event.writeJson (save_after_ggnn dir validSplitName env.dataset.valid_batches).1
           (save_after_ggnn dir validSplitName env.dataset.valid_batches).2,
         Event.writeJson (save_after_ggnn dir trainSplitName env.dataset.train_batches).1
           (save_after_ggnn dir trainSplitName env.dataset.train_batches).2]
      else []
    pre ++ [modelEv, trainEv] ++ saveEvents
  else
    pre ++ [Event.assertFeatureSizeFail]

/-- The `(max_steps, dev_every, loss, optimizer, save_path, max_patience,
model-whose-parameters)` tuples of the `train(...)` calls in a trace. -/
def trainCalls (es : List Event) :
    List (Nat × Nat × LossFn × Optimizer × String × Nat × ModelType) :=
  es.filterMap fun e =>
    match e with
    | Event.trainCall ms de l o sp mp pm => some (ms, de, l, o, sp, mp, pm)
    | _ => none

/-- The save paths of the `train(...)` calls in a trace. -/
def savePaths (es : List Event) : List String :=
  es.filterMap fun e =>
    match e with
    | Event.trainCall _ _ _ _ sp _ _ => some sp
    | _ => none

/-- The `(model_type, input_dim, output_dim, num_steps, max_edge_types)`
tuples of the model constructions in a trace. -/
def modelDims (es : List Event) : List (ModelType × Int × Int × Int × Nat) :=
  es.filterMap fun e =>
    match e with
    | Event.constructModel mt i o n m => some (mt, i, o, n, m)
    | _ => none

/-- The `(n_ident, g_ident, l_ident)` field names of the first dataset
construction in a trace. -/
def datasetTags (es : List Event) : Option (String × String × String) :=
  (es.filterMap fun e =>
    match e with
    | Event.constructDataset _ _ _ _ n g l => some (n, g, l)
    | _ => none).head?

/-- The `(path, mode)` pairs of the pickle writes in a trace. -/
def pickleWrites (es : List Event) : List (String × FileMode) :=
  es.filterMap fun e =>
    match e with
    | Event.writePickle p m => some (p, m)
    | _ => none

/-- Whether an event is a read of the pickled preprocessed dataset. -/
def Event.isReadPickled : Event → Bool
  | Event.readPickled _ => true
  | _ => false

/-- Early-stopping verdict of the training loop: how many validation
checks ran, and whether the loop halted early. -/
structure TrainResult where
  checks : Nat
  early_stopped : Bool
deriving DecidableEq, Repr

/-- Modelled from the spec: `trainer.train` is imported by the driver but
its module is not part of the source tree.  Per the spec's training-loop
design, every `dev_every` optimization steps the loop runs one validation
check; the best metric seen so far is tracked, an improving check resets
the patience counter, and after `max_patience` consecutive non-improving
checks the loop halts early-stopped; otherwise it runs until `max_steps`
optimization steps, i.e. at most `max_steps / dev_every` checks.
`runChecks mp metric remaining k best patience` runs the remaining
checks, `metric j` being the validation metric of the `j`-th check. -/
def runChecks (mp : Nat) (metric : Nat → Int) :
    Nat → Nat → Option Int → Nat → TrainResult
  | 0, k, _, _ => { checks := k, early_stopped := false }
  | n + 1, k, best, patience =>
    let v := metric (k + 1)
    match best with
    | none => runChecks mp metric n (k + 1) (some v) 0
    | some b =>
      if b < v then runChecks mp metric n (k + 1) (some v) 0
      else if mp ≤ patience + 1 then { checks := k + 1, early_stopped := true }
      else runChecks mp metric n (k + 1) (some b) (patience + 1)

/-- Modelled from the spec: the training loop entry point, with the
driver's calling convention `train(max_steps, dev_every, ..., max_patience)`. -/
def trainLoop (max_steps dev_every mp : Nat) (metric : Nat → Int) : TrainResult :=
  runChecks mp metric (max_steps / dev_every) 0 none 0

/-- The event performed immediately after the first dataset construction
of a trace, if any. -/
def afterConstruct : List Event → Option Event
  | [] => none
  | Event.constructDataset _ _ _ _ _ _ _ :: rest => rest.head?
  | _ :: rest => afterConstruct rest

/-- The `(path, content)` pairs of the JSON writes in a trace. -/
def jsonWrites (es : List Event) : List (String × List GraphEntry) :=
  es.filterMap fun e =>
    match e with
    | Event.writeJson p c => some (p, c)
    | _ => none

/-- Concrete sample dataset used to instantiate the theorems. -/
def ds0 : DataSet where
  feature_size := 4
  max_edge_type := 2
  train_batches := [{ embeddings := [[1, 2]], targets := [0] }]
  valid_batches := [{ embeddings := [[3, 4]], targets := [1] }]
  test_batches := [{ embeddings := [[5, 6]], targets := [1] }]

/-- Concrete sample environment (the pickle file does exist, to exercise
the dead branch). -/
def env0 : Env where
  processed_bin_exists := true
  dataset := ds0

def dsName0 : String := "dev"

def inpName0 : String := "inp"

/-- Concrete sample arguments whose feature size matches `ds0` and whose
graph-embed size triggers the auto-correction. -/
def args1 : Args where
  model_type := ModelType.devign
  dataset := dsName0
  input_dir := inpName0
  node_tag := defaultNodeTag
  graph_tag := defaultGraphTag
  label_tag := defaultLabelTag
  feature_size := 4
  graph_embed_size := 3
  num_steps := 6
  batch_size := 128
  save_after_ggnn := true

/-- Concrete sample arguments whose feature size does not match `ds0`. -/
def argsMis : Args where
  model_type := ModelType.ggnn
  dataset := dsName0
  input_dir := inpName0
  node_tag := defaultNodeTag
  graph_tag := defaultGraphTag
  label_tag := defaultLabelTag
  feature_size := 6
  graph_embed_size := 8
  num_steps := 6
  batch_size := 128
  save_after_ggnn := false

/-- A validation metric that never improves. -/
def metric0 : Nat → Int := fun _ => 0

@[simp]
theorem adjustArgs_feature_size (a : Args) :
    ((adjustArgs a).1).feature_size = a.feature_size := by
  unfold adjustArgs; split <;> rfl

@[simp]
theorem adjustArgs_graph_embed_size (a : Args) :
    ((adjustArgs a).1).graph_embed_size = max a.feature_size a.graph_embed_size := by
  unfold adjustArgs; split <;> simp <;> omega

@[simp]
theorem adjustArgs_model_type (a : Args) :
    ((adjustArgs a).1).model_type = a.model_type := by
  unfold adjustArgs; split <;> rfl

@[simp]
theorem adjustArgs_dataset (a : Args) :
    ((adjustArgs a).1).dataset = a.dataset := by
  unfold adjustArgs; split <;> rfl

@[simp]
theorem adjustArgs_input_dir (a : Args) :
    ((adjustArgs a).1).input_dir = a.input_dir := by
  unfold adjustArgs; split <;> rfl

@[simp]
theorem adjustArgs_node_tag (a : Args) :
    ((adjustArgs a).1).node_tag = a.node_tag := by
  unfold adjustArgs; split <;> rfl

@[simp]
theorem adjustArgs_graph_tag (a : Args) :
    ((adjustArgs a).1).graph_tag = a.graph_tag := by
  unfold adjustArgs; split <;> rfl

@[simp]
theorem adjustArgs_label_tag (a : Args) :
    ((adjustArgs a).1).label_tag = a.label_tag := by
  unfold adjustArgs; split <;> rfl

@[simp]
theorem adjustArgs_num_steps (a : Args) :
    ((adjustArgs a).1).num_steps = a.num_steps := by
  unfold adjustArgs; split <;> rfl

@[simp]
theorem adjustArgs_batch_size (a : Args) :
    ((adjustArgs a).1).batch_size = a.batch_size := by
  unfold adjustArgs; split <;> rfl

@[simp]
theorem adjustArgs_save_flag (a : Args) :
    ((adjustArgs a).1).save_after_ggnn = a.save_after_ggnn := by
  unfold adjustArgs; split <;> rfl

@[simp]
theorem adjustArgs_snd (a : Args) :
    (adjustArgs a).2 = decide (a.graph_embed_size < a.feature_size) := by
  unfold adjustArgs; split <;> simp <;> omega

/-- Claim C9: the driver seeds the torch and numpy generators with the
constant 1000 before doing anything else; with both generators seeded to
a fixed constant up front, the driver's randomness sources make the same
choices on any two runs with the same inputs and configuration. -/
theorem devign_seeds_first (args : Args) (env : Env) :
    (mainRun args env).take 2 = [Event.seedTorch 1000, Event.seedNumpy 1000] := by
  simp only [mainRun]
  split_ifs <;> simp

/-- Claim C5: whenever the training loop is invoked, it is invoked with
`BCELoss(reduction='sum')` and `Adam` over the selected model's
parameters with learning rate 0.0001 and weight decay 0.001 (and it is
invoked exactly once, whenever the feature-size assertion passes). -/
theorem devign_train_call_params (args : Args) (env : Env) :
    trainCalls (mainRun args env) =
      if args.feature_size = env.dataset.feature_size then
        [(1000000, 128, LossFn.bceLoss Reduction.rsum,
          Optimizer.adam (1 / 10000) (1 / 1000),
          osJoin modelsDirName args.dataset ++ ggnnSumModelSuffix, 5, args.model_type)]
      else []
    := by
  simp only [mainRun, trainCalls]
  split_ifs <;> simp_all [List.filterMap_append]

/-- Claim C7: the dataset is constructed with field names taken from the
`node_tag`, `graph_tag`, `label_tag` flags, which default to
`node_features`, `graph`, `target` when omitted and are passed through
verbatim when given. -/
theorem devign_tag_defaults (c : CmdLine) (env : Env) :
    datasetTags (mainRun (parseArgs c) env) =
      some (c.node_tag.getD defaultNodeTag, c.graph_tag.getD defaultGraphTag,
        c.label_tag.getD defaultLabelTag) := by
  simp only [mainRun, datasetTags]
  split_ifs <;> simp_all [List.filterMap_append, parseArgs]



/-- Claim C3: every run reconstructs the dataset from the three JSON
files; the pickle-load branch is dead code because its condition is
`False and ...`, so no event of the run reads `processed.bin`, whatever
`env.processed_bin_exists` says. -/
theorem devign_dataset_always_reconstructed (args : Args) (env : Env) :
    ((mainRun args env).all fun e => ! e.isReadPickled) = true
    ∧ Event.constructDataset (osJoin args.input_dir trainFileName)
        (osJoin args.input_dir validFileName) (osJoin args.input_dir testFileName)
        args.batch_size args.node_tag args.graph_tag args.label_tag ∈ mainRun args env := by
  constructor
  · simp only [mainRun]
    split_ifs <;> simp_all [Event.isReadPickled]
  · simp only [mainRun]
    split_ifs <;> simp_all

/-- Claim C10: on every run — whatever the prior state of the file —
the freshly constructed dataset is pickled to `<input_dir>/processed.bin`
in mode `'wb'` (truncating any existing file), immediately after the
dataset construction, and no event of any run reads that file back. -/
theorem devign_pickle_always_written (args : Args) (env : Env) :
    pickleWrites (mainRun args env) = [(osJoin args.input_dir processedBinName, FileMode.wb)]
    ∧ afterConstruct (mainRun args env) =
        some (Event.writePickle (osJoin args.input_dir processedBinName) FileMode.wb)
    ∧ ((mainRun args env).all fun e => ! e.isReadPickled) = true := by
  refine ⟨?_, ?_, ?_⟩
  · simp only [mainRun, pickleWrites]
    split_ifs <;> simp_all [List.filterMap_append]
  · simp only [mainRun]
    split_ifs <;> simp_all [afterConstruct]
  · simp only [mainRun]
    split_ifs <;> simp_all [Event.isReadPickled]

/-- Claim C1: when `feature_size > graph_embed_size` the driver prints
the warning and raises `graph_embed_size` to `feature_size`; when
`feature_size <= graph_embed_size` the value is left unchanged; the
adjusted value is the one every model construction uses as `output_dim`;
and this condition never aborts the run — the only abort is the
feature-size assertion, which is independent of it. -/
theorem devign_embed_size_autocorrect (args : Args) (env : Env) :
    (Event.warnEmbedSize ∈ mainRun args env ↔ args.graph_embed_size < args.feature_size)
    ∧ ((adjustArgs args).1).graph_embed_size = max args.feature_size args.graph_embed_size
    ∧ ((adjustArgs args).1).feature_size = args.feature_size
    ∧ modelDims (mainRun args env) =
        (if args.feature_size = env.dataset.feature_size then
          [(args.model_type, env.dataset.feature_size,
            max args.feature_size args.graph_embed_size, args.num_steps,
            env.dataset.max_edge_type)]
        else [])
    ∧ (Event.assertFeatureSizeFail ∈ mainRun args env ↔
        ¬ args.feature_size = env.dataset.feature_size) := by
  refine ⟨?_, by simp, by simp, ?_, ?_⟩
  · simp only [mainRun]
    split_ifs <;> simp_all
  · simp only [mainRun, modelDims]
    split_ifs <;> simp_all [List.filterMap_append]
  · simp only [mainRun]
    split_ifs <;> simp_all

/-- Claim C2: the run aborts at the feature-size assertion exactly when
the command-line `feature_size` differs from the one the constructed
dataset detected; on a mismatch the assertion failure is the last event
and no model has been constructed; on a match no such abort occurs. -/
theorem devign_feature_size_assert (args : Args) (env : Env) :
    (Event.assertFeatureSizeFail ∈ mainRun args env ↔
      args.feature_size ≠ env.dataset.feature_size)
    ∧ (args.feature_size ≠ env.dataset.feature_size →
        modelDims (mainRun args env) = []
        ∧ (mainRun args env).getLast? = some Event.assertFeatureSizeFail) := by
  constructor
  · simp only [mainRun]
    split_ifs <;> simp_all
  · intro hne
    constructor
    · simp only [mainRun, modelDims]
      split_ifs <;> simp_all [List.filterMap_append]
    · simp only [mainRun]
      split_ifs <;> simp_all

/-- Claim C8: the checkpoint save path handed to the training loop is
`models/<dataset>/GGNNSumModel` (for any dataset name not starting with
a slash); it depends only on the dataset name, and both model types are
saved under the same `GGNNSumModel` name. -/
theorem devign_save_path_model_independent (args : Args) (env : Env)
    (h : args.dataset.front ≠ '/') :
    savePaths (mainRun { args with model_type := ModelType.devign } env)
        = savePaths (mainRun args env)
    ∧ savePaths (mainRun { args with model_type := ModelType.ggnn } env)
        = savePaths (mainRun args env)
    ∧ savePaths (mainRun args env) =
        if args.feature_size = env.dataset.feature_size then
          [modelsDirName ++ "/" ++ args.dataset ++ ggnnSumModelSuffix]
        else [] := by
  have hjoin : osJoin modelsDirName args.dataset = modelsDirName ++ "/" ++ args.dataset := by
    unfold osJoin
    rw [if_neg h, if_neg (by decide)]
  refine ⟨?_, ?_, ?_⟩
  · simp only [mainRun, savePaths, adjustArgs]
    split_ifs <;> simp_all [List.filterMap_append]
  · simp only [mainRun, savePaths, adjustArgs]
    split_ifs <;> simp_all [List.filterMap_append]
  · simp only [mainRun, savePaths]
    split_ifs <;> simp_all [List.filterMap_append, hjoin]


/-- Claim C4: with `--save_after_ggnn` set (and the run not aborted by
the feature-size assertion), the driver writes exactly one JSON file per
split, named `<split>_GGNNinput_graph.json` inside
`<input_dir>/after_ggnn`, whose content is the array of
`{graph_feature, target}` objects obtained by zipping each batch's
embedding rows with its targets and concatenating the batches in
iteration order; all three writes happen after the training call; and
when every batch is well-formed (as many embedding rows as targets) the
array has exactly one entry per example of the split. -/
theorem devign_after_ggnn_export (args : Args) (env : Env)
    (hs : args.save_after_ggnn = true)
    (hf : args.feature_size = env.dataset.feature_size) :
    jsonWrites (mainRun args env) =
      [(osJoin (osJoin args.input_dir afterGgnnDirName) (testSplitName ++ ggnnGraphSuffix),
        ((env.dataset.test_batches.map fun b => b.embeddings.zip b.targets).flatten).map
          fun f => { graph_feature := f.1, target := f.2 }),
       (osJoin (osJoin args.input_dir afterGgnnDirName) (validSplitName ++ ggnnGraphSuffix),
        ((env.dataset.valid_batches.map fun b => b.embeddings.zip b.targets).flatten).map
          fun f => { graph_feature := f.1, target := f.2 }),
       (osJoin (osJoin args.input_dir afterGgnnDirName) (trainSplitName ++ ggnnGraphSuffix),
        ((env.dataset.train_batches.map fun b => b.embeddings.zip b.targets).flatten).map
          fun f => { graph_feature := f.1, target := f.2 })]
    ∧ (∃ pre post, mainRun args env = pre ++ post
        ∧ (∃ l o sp, Event.trainCall 1000000 128 l o sp 5 args.model_type ∈ pre)
        ∧ jsonWrites pre = [])
    ∧ (∀ d n bs, (∀ b ∈ bs, (BatchOut.embeddings b).length = (BatchOut.targets b).length) →
        ((save_after_ggnn d n bs).2).length = (bs.map fun b => (BatchOut.targets b).length).sum)
    := by
  refine ⟨?_, ?_, ?_⟩
  · simp only [mainRun, jsonWrites]
    split_ifs <;> simp_all [List.filterMap_append, save_after_ggnn]
  · refine ⟨[Event.seedTorch 1000, Event.seedNumpy 1000]
        ++ (if args.graph_embed_size < args.feature_size then [Event.warnEmbedSize] else [])
        ++ [Event.constructDataset (osJoin args.input_dir trainFileName)
              (osJoin args.input_dir validFileName) (osJoin args.input_dir testFileName)
              args.batch_size args.node_tag args.graph_tag args.label_tag,
            Event.writePickle (osJoin args.input_dir processedBinName) FileMode.wb,
            Event.constructModel args.model_type env.dataset.feature_size
              (max args.feature_size args.graph_embed_size) args.num_steps
              env.dataset.max_edge_type,
            Event.trainCall 1000000 128 (LossFn.bceLoss Reduction.rsum)
              (Optimizer.adam (1 / 10000) (1 / 1000))
              (osJoin modelsDirName args.dataset ++ ggnnSumModelSuffix) 5 args.model_type],
        [Event.writeJson (save_after_ggnn (osJoin args.input_dir afterGgnnDirName)
              testSplitName env.dataset.test_batches).1
            (save_after_ggnn (osJoin args.input_dir afterGgnnDirName) testSplitName
              env.dataset.test_batches).2,
         Event.writeJson (save_after_ggnn (osJoin args.input_dir afterGgnnDirName)
              validSplitName env.dataset.valid_batches).1
            (save_after_ggnn (osJoin args.input_dir afterGgnnDirName) validSplitName
              env.dataset.valid_batches).2,
         Event.writeJson (save_after_ggnn (osJoin args.input_dir afterGgnnDirName)
              trainSplitName env.dataset.train_batches).1
            (save_after_ggnn (osJoin args.input_dir afterGgnnDirName) trainSplitName
              env.dataset.train_batches).2], ?_, ?_, ?_⟩
    · simp only [mainRun]
      split_ifs <;> simp_all
      omega
    · exact ⟨LossFn.bceLoss Reduction.rsum,
        Optimizer.adam (1 / 10000) (1 / 1000),
        osJoin modelsDirName args.dataset ++ ggnnSumModelSuffix, by
          split_ifs <;> simp⟩
    · simp only [jsonWrites]
      split_ifs <;> simp [List.filterMap_append]
  · intro d n bs hb
    simp only [save_after_ggnn, List.length_map, List.length_flatten]
    rw [List.map_map]
    refine congrArg List.sum (List.map_congr_left ?_)
    intro b hbmem
    simp [List.length_zip, hb b hbmem]

theorem runChecks_first (metric : Nat → Int) (n k p : Nat) :
    runChecks 5 metric (n + 1) k none p = runChecks 5 metric n (k + 1) (some (metric (k + 1))) 0 := by
  simp only [runChecks]

theorem runChecks_stall (metric : Nat → Int) (n k p : Nat) (b : Int)
    (hv : metric (k + 1) ≤ b) (hp : p + 1 < 5) :
    runChecks 5 metric (n + 1) k (some b) p = runChecks 5 metric n (k + 1) (some b) (p + 1) := by
  simp only [runChecks]
  rw [if_neg (not_lt.mpr hv), if_neg (by omega)]

theorem runChecks_stop (metric : Nat → Int) (n k : Nat) (b : Int)
    (hv : metric (k + 1) ≤ b) :
    runChecks 5 metric (n + 1) k (some b) 4 = { checks := k + 1, early_stopped := true } := by
  simp only [runChecks]
  rw [if_neg (not_lt.mpr hv), if_pos (by omega)]

theorem runChecks_never_improving (metric : Nat → Int)
    (h : ∀ j, 2 ≤ j → metric j ≤ metric 1) (m : Nat) :
    runChecks 5 metric (m + 6) 0 none 0 = { checks := 6, early_stopped := true } := by
  rw [show m + 6 = (m + 5) + 1 from rfl, runChecks_first]
  rw [show m + 5 = (m + 4) + 1 from rfl, runChecks_stall metric _ _ _ _ (h 2 (by omega)) (by omega)]
  rw [show m + 4 = (m + 3) + 1 from rfl, runChecks_stall metric _ _ _ _ (h 3 (by omega)) (by omega)]
  rw [show m + 3 = (m + 2) + 1 from rfl, runChecks_stall metric _ _ _ _ (h 4 (by omega)) (by omega)]
  rw [show m + 2 = (m + 1) + 1 from rfl, runChecks_stall metric _ _ _ _ (h 5 (by omega)) (by omega)]
  rw [show m + 1 = m + 1 from rfl, runChecks_stop metric _ _ _ (h 6 (by omega))]

/-- Claim C6: the driver calls the training loop with `max_patience=5`
(and `max_steps=1000000`, `dev_every=128`, allowing 7812 validation
checks); under a validation metric that never improves on the first
check's value, the loop halts early-stopped at the 6th check — exactly 5
validation checks past the best one (the first). -/
theorem devign_early_stop_patience_five (metric : Nat → Int)
    (h : ∀ j, 2 ≤ j → metric j ≤ metric 1) (args : Args) (env : Env)
    (hf : args.feature_size = env.dataset.feature_size) :
    (∃ l o sp, Event.trainCall 1000000 128 l o sp 5 args.model_type ∈ mainRun args env)
    ∧ trainLoop 1000000 128 5 metric = { checks := 6, early_stopped := true } := by
  constructor
  · refine ⟨LossFn.bceLoss Reduction.rsum, Optimizer.adam (1 / 10000) (1 / 1000),
      osJoin modelsDirName args.dataset ++ ggnnSumModelSuffix, ?_⟩
    simp only [mainRun]
    split_ifs <;> simp_all
  · have : (1000000 : Nat) / 128 = 7806 + 6 := by norm_num
    unfold trainLoop
    rw [this]
    exact runChecks_never_improving metric h 7806

/-- Witness for C1 at a concrete run: `args1` has `feature_size = 4 >
3 = graph_embed_size`, and the warning is indeed printed. -/
theorem devign_embed_size_autocorrect_witness :
    Event.warnEmbedSize ∈ mainRun args1 env0 :=
  (devign_embed_size_autocorrect args1 env0).1.mpr (by decide)

/-- Witness for C2 at a concrete run: `argsMis` declares feature size 6
against a dataset of feature size 4, so the run ends at the assertion
with no model constructed. -/
theorem devign_feature_size_assert_witness :
    modelDims (mainRun argsMis env0) = []
    ∧ (mainRun argsMis env0).getLast? = some Event.assertFeatureSizeFail :=
  (devign_feature_size_assert argsMis env0).2 (by decide)

/-- Witness for C4 at a concrete run: the exported test-split array of
`ds0` has exactly one entry per example. -/
theorem devign_after_ggnn_export_witness :
    ((save_after_ggnn inpName0 testSplitName ds0.test_batches).2).length
      = (ds0.test_batches.map fun b => (BatchOut.targets b).length).sum :=
  (devign_after_ggnn_export args1 env0 rfl rfl).2.2 inpName0 testSplitName
    ds0.test_batches (by decide)

/-- Witness for C6 at a concrete run: under the constantly-zero metric
the loop the driver configures stops early at the 6th check. -/
theorem devign_early_stop_patience_five_witness :
    trainLoop 1000000 128 5 metric0 = { checks := 6, early_stopped := true } :=
  (devign_early_stop_patience_five metric0 (fun _ _ => le_refl (0 : Int)) args1 env0 rfl).2

/-- Witness for C8 at a concrete run: for dataset name `dev` the single
save path is `models/dev/GGNNSumModel`. -/
theorem devign_save_path_model_independent_witness :
    savePaths (mainRun args1 env0) =
      if args1.feature_size = env0.dataset.feature_size then
        [modelsDirName ++ "/" ++ args1.dataset ++ ggnnSumModelSuffix]
      else [] :=
  (devign_save_path_model_independent args1 env0 (by decide)).2.2
